import Mathlib

set_option linter.unusedVariables false

/-
Verification of the packet framing, discovery session and host lookup logic
of the PocketRelay data-collect plugin.

The Rust sources are shallowly embedded: byte buffers become `List Nat`
(each element a byte value), `u8`/`u16` reads and writes become arithmetic
with explicit `% 256` / `% 65536`, the mutable `BytesMut` cursors become
explicit state passing (every reader returns the remaining buffer, so the
partial consumption a failed read leaves behind is visible), and the
`tokio` stream consumed by `expect_response` becomes a list of already
framed packets (or transport failures).
-/

/- ### src/servers/packet.rs -/

/-- The packet type enumeration (`PacketType`): Request, Response, Notify,
Error, with wire ordinals 0-3 stored in the high nibble of one byte. -/
inductive PacketType where
  | Request
  | Response
  | Notify
  | Error
deriving DecidableEq

/-- Wire ordinal of a packet type (the value of `ty as u8` in the source). -/
def PacketType.toNat : PacketType → Nat
  | .Request => 0
  | .Response => 1
  | .Notify => 2
  | .Error => 3

/-- Embedding of `impl From<u8> for PacketType`: ordinals 0-3 map to the four
types, anything else falls back to `Request`. -/
def PacketType.from_u8 : Nat → PacketType
  | 0 => .Request
  | 1 => .Response
  | 2 => .Notify
  | 3 => .Error
  | _ => .Request

/-- Bitflag constant `PacketOptions::NONE`. -/
def PacketOptions.NONE : Nat := 0x0

/-- Bitflag constant `PacketOptions::JUMBO_FRAME`. -/
def PacketOptions.JUMBO_FRAME : Nat := 0x1

/-- Bitflag constant `PacketOptions::HAS_CONTXT`. -/
def PacketOptions.HAS_CONTXT : Nat := 0x2

/-- Bitflag constant `PacketOptions::IMMEDIATE`. -/
def PacketOptions.IMMEDIATE : Nat := 0x4

/-- Bitflag constant `PacketOptions::JUMBO_CONTEXT`. -/
def PacketOptions.JUMBO_CONTEXT : Nat := 0x8

/-- Embedding of `bitflags` `contains`: all bits of `flag` are present. -/
def PacketOptions.contains (self flag : Nat) : Bool := self &&& flag == flag

/-- The packet header record (`PacketHeader`): component, command, error,
type, options bit set (kept as the raw bits value) and sequence number. -/
structure PacketHeader where
  component : Nat
  command : Nat
  error : Nat
  ty : PacketType
  options : Nat
  seq : Nat
deriving DecidableEq

/-- Embedding of `PacketHeader::with_type`: copies the header but replaces the
type, and (as written in the source) resets `options` to `NONE`. -/
def PacketHeader.with_type (self : PacketHeader) (ty : PacketType) : PacketHeader :=
  { component := self.component
    command := self.command
    error := self.error
    ty := ty
    options := PacketOptions.NONE
    seq := self.seq }

/-- Embedding of `PacketHeader::response`. -/
def PacketHeader.response (self : PacketHeader) : PacketHeader :=
  self.with_type PacketType.Response

/-- Embedding of `PacketHeader::request`. -/
def PacketHeader.request (id component command : Nat) : PacketHeader :=
  { component := component
    command := command
    error := 0
    ty := PacketType.Request
    options := PacketOptions.NONE
    seq := id }

/-- Embedding of `PacketHeader::path_matches`: equality of the
`(component, command)` pair. -/
def PacketHeader.path_matches (self other : PacketHeader) : Bool :=
  self.component == other.component && self.command == other.command

/-- Embedding of `PacketHeader::write`.  Exactly as in the source, a local
`options` value with `JUMBO_FRAME` forced on for lengths above `0xFFFF` is
computed first but never read again: the emitted options byte and the
extension-byte condition both use `self.options`.  `put_u8` truncation is the
explicit `% 256`; `put_u16` writes two big-endian bytes. -/
def PacketHeader.write (self : PacketHeader) (length : Nat) : List Nat :=
  let options := if length > 0xFFFF then self.options ||| PacketOptions.JUMBO_FRAME
                 else self.options
  [(length >>> 8) % 256, length % 256,
   (self.component >>> 8) % 256, self.component % 256,
   (self.command >>> 8) % 256, self.command % 256,
   (self.error >>> 8) % 256, self.error % 256,
   (self.ty.toNat <<< 4) % 256,
   (self.options <<< 4) % 256,
   (self.seq >>> 8) % 256, self.seq % 256]
  ++ (if PacketOptions.contains self.options PacketOptions.JUMBO_FRAME then
        [(length >>> 24) % 256, (length >>> 16) % 256]
      else [])

/-- Embedding of `PacketHeader::read`.  Needs 12 bytes for the fixed part
(fewer return `none` with the buffer untouched); a set `JUMBO_FRAME` flag
demands two further bytes which are folded into the length with the same
shifts as the source (`length |= (b1 << 24) | (b2 << 16)`), and when they are
missing `none` is returned with the 12 fixed bytes already consumed.  The
returned list is the state the `BytesMut` cursor was left in. -/
def PacketHeader.read : List Nat → Option (PacketHeader × Nat) × List Nat
  | l0 :: l1 :: c0 :: c1 :: m0 :: m1 :: e0 :: e1 :: tb :: ob :: s0 :: s1 :: rest =>
      let length := l0 * 256 + l1
      let ty := tb >>> 4
      let options := ob >>> 4
      let header : PacketHeader :=
        { component := c0 * 256 + c1
          command := m0 * 256 + m1
          error := e0 * 256 + e1
          ty := PacketType.from_u8 ty
          options := options
          seq := s0 * 256 + s1 }
      if PacketOptions.contains options PacketOptions.JUMBO_FRAME then
        match rest with
        | j1 :: j2 :: rest2 =>
            (some (header, length ||| (j1 <<< 24 ||| j2 <<< 16)), rest2)
        | _ => (none, rest)
      else
        (some (header, length), rest)
  | src => (none, src)

/-- A packet (`Packet`): a header plus opaque content bytes. -/
structure Packet where
  header : PacketHeader
  contents : List Nat
deriving DecidableEq

/-- Embedding of `Packet::new`. -/
def Packet.new (header : PacketHeader) (contents : List Nat) : Packet :=
  { header := header, contents := contents }

/-- Embedding of `Packet::new_empty`. -/
def Packet.new_empty (header : PacketHeader) : Packet :=
  Packet.new header []

/-- Embedding of `Packet::new_request`. -/
def Packet.new_request (id component command : Nat) (contents : List Nat) : Packet :=
  Packet.new (PacketHeader.request id component command) contents

/-- Embedding of `Packet::new_response` (and of `Packet::response`, which
only differs by serializing its value argument through the external tdf
codec before delegating here). -/
def Packet.new_response (packet : Packet) (contents : List Nat) : Packet :=
  Packet.new packet.header.response contents

/-- Embedding of `Packet::request_empty`. -/
def Packet.request_empty (id component command : Nat) : Packet :=
  Packet.new_empty (PacketHeader.request id component command)

/-- Embedding of `Packet::read`: read a header and length, then demand
`length` content bytes; too few leave `none` (with the header bytes already
consumed from the cursor, exactly as in the source). -/
def Packet.read (src : List Nat) : Option Packet × List Nat :=
  match PacketHeader.read src with
  | (none, s) => (none, s)
  | (some (header, length), s) =>
      if s.length < length then (none, s)
      else (some { header := header, contents := s.take length }, s.drop length)

/-- Embedding of `Packet::write`: header (with the content length) followed
by the contents. -/
def Packet.write (self : Packet) : List Nat :=
  self.header.write self.contents.length ++ self.contents

/-- Embedding of `Decoder::decode` for `PacketCodec`: the read runs on a
private copy of the buffer and the real buffer is replaced only when a
complete packet came out; the result is always `Ok`.  The `Except` layer
mirrors the `Result<Option<Packet>, io::Error>` signature. -/
def PacketCodec.decode (src : List Nat) : Except String (Option Packet × List Nat) :=
  match Packet.read src with
  | (some packet, read_src) => Except.ok (some packet, read_src)
  | (none, _) => Except.ok (none, src)

/-- Embedding of `Encoder::encode` for `PacketCodec`. -/
def PacketCodec.encode (item : Packet) (dst : List Nat) : Except String (List Nat) :=
  Except.ok (dst ++ item.write)

/- ### src/servers/retriever.rs -/

/-- Embedding of `RetrieverError`; the `Packet` variant wraps the whole error
packet (source `ErrorPacket`), whose displayed code is `header.error`. -/
inductive RetrieverError where
  | Decode (e : String)
  | IOError (e : String)
  | Packet (p : Packet)
  | EarlyEof
deriving DecidableEq

/-- Embedding of `OfficialSession::expect_response`: the incoming stream is a
list of framed results; each `Ok` packet is inspected in order, matching
Response packets are returned, Error packets abort, everything else is
dropped, and an exhausted stream gives `EarlyEof`. -/
def OfficialSession.expect_response (request : PacketHeader) :
    List (Except String Packet) → Except RetrieverError Packet
  | [] => Except.error RetrieverError.EarlyEof
  | Except.error e :: _ => Except.error (RetrieverError.IOError e)
  | Except.ok response :: rest =>
      let header := response.header
      if header.ty = PacketType.Response then
        if header.path_matches request then Except.ok response
        else OfficialSession.expect_response request rest
      else if header.ty = PacketType.Error then
        Except.error (RetrieverError.Packet response)
      else
        OfficialSession.expect_response request rest

/-- Discovery session state: the `id: u16` counter for the next request. -/
structure OfficialSession where
  id : Nat
deriving DecidableEq

/-- Embedding of `OfficialSession::connect`: the counter starts at 0. -/
def OfficialSession.connect : OfficialSession := { id := 0 }

/-- Embedding of the send half of `OfficialSession::request_raw`: the packet
is built with the current id, then `self.id += 1` advances the `u16` counter
(wrapping at `2^16`, as release-mode Rust addition on `u16` does). -/
def OfficialSession.request_raw (self : OfficialSession)
    (component command : Nat) (contents : List Nat) : Packet × OfficialSession :=
  (Packet.new_request self.id component command contents,
   { id := (self.id + 1) % 65536 })

/-- Session state after `n` requests have been issued since `connect`. -/
def OfficialSession.after : Nat → OfficialSession
  | 0 => OfficialSession.connect
  | n + 1 => ((OfficialSession.after n).request_raw 0 0 []).2

/-- Sequence id carried by the `n`-th request (0-based) of one session. -/
def OfficialSession.nthRequestSeq (n : Nat) : Nat :=
  (((OfficialSession.after n).request_raw 0 0 []).1).header.seq

/-- An address as produced by the system resolver: its textual rendering and
its `is_loopback` test are all `lookup_host` consumes. -/
structure IpAddr where
  rep : String
  is_loopback : Bool
deriving DecidableEq

/-- One entry of the DNS-over-HTTPS `Answer` array; only `data` is kept. -/
structure Answer where
  data : String
deriving DecidableEq

/-- The DNS-over-HTTPS response body (`LookupResponse`). -/
structure LookupResponse where
  answer : List Answer
deriving DecidableEq

/-- Embedding of `InstanceError`. -/
inductive InstanceError where
  | LookupRequest (e : String)
  | MissingValue
  | Blaze (e : String)
  | InstanceRequest (e : String)
  | MissingAddress
deriving DecidableEq

/-- Embedding of `OfficialInstance::lookup_host`.  The two effects are passed
in as values: `sysDns` is `tokio::net::lookup_host(host).await.ok()` (the
iterator as a list), `doh` the outcome of the Cloudflare DNS-over-HTTPS
request.  The first system address is used unless missing or loopback; the
fallback takes `answer.pop()` — the last entry — and maps it to its `data`,
or fails with `MissingValue` when the list is empty. -/
def OfficialInstance.lookup_host (sysDns : Option (List IpAddr))
    (doh : Except String LookupResponse) : Except InstanceError String :=
  let fallback : Except InstanceError String :=
    match doh with
    | Except.error e => Except.error (InstanceError.LookupRequest e)
    | Except.ok response =>
        match response.answer.getLast? with
        | some value => Except.ok value.data
        | none => Except.error InstanceError.MissingValue
  match sysDns.bind List.head? with
  | some tokio => if tokio.is_loopback = false then Except.ok tokio.rep else fallback
  | none => fallback

/- ### Helper lemmas -/

/-- The session id counter after `n` requests is `n` reduced modulo `2^16`. -/
theorem OfficialSession.after_id (n : Nat) :
    (OfficialSession.after n).id = n % 65536 := by
  induction n with
  | zero => rfl
  | succ n ih =>
      simp only [OfficialSession.after, OfficialSession.request_raw, ih]
      omega

/-- The `n`-th request of a session carries sequence id `n % 65536`. -/
theorem OfficialSession.nthRequestSeq_eq (n : Nat) :
    OfficialSession.nthRequestSeq n = n % 65536 := by
  simp [OfficialSession.nthRequestSeq, OfficialSession.request_raw,
    Packet.new_request, Packet.new, PacketHeader.request, OfficialSession.after_id]

/- ### Claim theorems -/

/-- C1 (code bug evidence): at the failing input — a header with options
`NONE` and content length `0x10000` — decoding the written bytes yields the
unchanged header (no `JumboFrame` flag) and content length `0`, not the
original `0x10000` the claim's round trip promises: `write` computes its
jumbo-corrected options value but never emits it. -/
theorem C1_roundtrip_eval :
    PacketHeader.read
      (PacketHeader.write
        { component := 1, command := 2, error := 0, ty := PacketType.Request,
          options := PacketOptions.NONE, seq := 3 } 65536)
      = (some ({ component := 1, command := 2, error := 0, ty := PacketType.Request,
                 options := PacketOptions.NONE, seq := 3 }, 0), []) := by
  decide

/-- C2 (code bug evidence): encoding a content length of `0x10000` with
caller options `NONE` emits twelve bytes only — no extension bytes — and the
options byte (index 9) is `0`, with the flag not forced on; while a length of
`0xFFFF` indeed encodes without extension bytes.  The forced-flag local in
the source is dead. -/
theorem C2_write_eval :
    PacketHeader.write
        { component := 0, command := 0, error := 0, ty := PacketType.Request,
          options := PacketOptions.NONE, seq := 0 } 65536
      = [0, 0, 0, 0, 0, 0, 0, 0, 0, 0, 0, 0]
  ∧ (PacketHeader.write
        { component := 0, command := 0, error := 0, ty := PacketType.Request,
          options := PacketOptions.NONE, seq := 0 } 65535).length = 12 := by
  decide

/-- C6 counterexample: for a request whose options byte is nonzero
(`JUMBO_FRAME` set), the response header does not equal the request header
with only the type changed — the options are reset. -/
theorem C6_counterexample :
    (Packet.new_response
        { header := { component := 1, command := 2, error := 3,
                      ty := PacketType.Request,
                      options := PacketOptions.JUMBO_FRAME, seq := 4 },
          contents := [] } []).header
      ≠ { component := 1, command := 2, error := 3, ty := PacketType.Response,
          options := PacketOptions.JUMBO_FRAME, seq := 4 } := by
  decide

/-- C6 (amended): the header of `Packet::new_response` equals the request's
header with the type changed to `Response` and the options reset to `NONE`;
component, command, error and sequence are unchanged. -/
theorem C6_response_header (packet : Packet) (contents : List Nat) :
    (Packet.new_response packet contents).header =
      { component := packet.header.component, command := packet.header.command,
        error := packet.header.error, ty := PacketType.Response,
        options := PacketOptions.NONE, seq := packet.header.seq } := rfl

/-- C8 counterexample: the id counter is a wrapping 16-bit value, so request
number 65536 reuses sequence id 0 — the id of the very first request — and is
not one greater than request 65535's id 65535. -/
theorem C8_counterexample :
    OfficialSession.nthRequestSeq 0 = 0
  ∧ OfficialSession.nthRequestSeq 65535 = 65535
  ∧ OfficialSession.nthRequestSeq 65536 = 0 := by
  refine ⟨?_, ?_, ?_⟩ <;> simp [OfficialSession.nthRequestSeq_eq]

/-- C8 (amended): within one session the first request carries sequence id 0
and the `n`-th request carries `n % 65536` (the counter wraps at `2^16`), so
ids increase by exactly one per request and never repeat among the first
65536 requests of the session. -/
theorem C8_request_ids :
    (∀ n : Nat, OfficialSession.nthRequestSeq n = n % 65536)
  ∧ (∀ m n : Nat, m < n → n < 65536 →
      OfficialSession.nthRequestSeq m ≠ OfficialSession.nthRequestSeq n) := by
  refine ⟨OfficialSession.nthRequestSeq_eq, ?_⟩
  intro m n hmn hn
  rw [OfficialSession.nthRequestSeq_eq, OfficialSession.nthRequestSeq_eq]
  omega

/-- C8 witness: the theorem applied at concrete requests 5, 0 and 1. -/
theorem C8_witness :
    OfficialSession.nthRequestSeq 5 = 5 % 65536
  ∧ OfficialSession.nthRequestSeq 0 ≠ OfficialSession.nthRequestSeq 1 :=
  ⟨C8_request_ids.1 5, C8_request_ids.2 0 1 (by norm_num) (by norm_num)⟩

/-- C9: the u8-to-PacketType conversion maps ordinals 0, 1, 2, 3 to Request,
Response, Notify, Error respectively, and every other byte value (4-255)
falls back to Request. -/
theorem C9_type_fallback :
    PacketType.from_u8 0 = PacketType.Request
  ∧ PacketType.from_u8 1 = PacketType.Response
  ∧ PacketType.from_u8 2 = PacketType.Notify
  ∧ PacketType.from_u8 3 = PacketType.Error
  ∧ ∀ n : Nat, 4 ≤ n → n ≤ 255 → PacketType.from_u8 n = PacketType.Request := by
  refine ⟨rfl, rfl, rfl, rfl, ?_⟩
  intro n h4 _
  obtain ⟨m, rfl⟩ : ∃ m, n = m + 4 := ⟨n - 4, by omega⟩
  rfl

/-- C9 witness: the fallback theorem applied at the unrecognized ordinal 200. -/
theorem C9_witness : PacketType.from_u8 200 = PacketType.Request :=
  C9_type_fallback.2.2.2.2 200 (by norm_num) (by norm_num)

/-- C3: the `expect_response` loop discards Notify packets and Response
packets on the wrong path and keeps reading; it returns the first Response
whose path matches the request; the first Error-typed packet — whatever its
path — immediately fails the call carrying that packet (whose displayed code
is its header's error field); and an exhausted stream fails with `EarlyEof`. -/
theorem C3_expect_response_contract :
    (∀ request : PacketHeader,
        OfficialSession.expect_response request []
          = Except.error RetrieverError.EarlyEof)
  ∧ (∀ (request : PacketHeader) (p : Packet) (rest : List (Except String Packet)),
        p.header.ty = PacketType.Notify →
        OfficialSession.expect_response request (Except.ok p :: rest)
          = OfficialSession.expect_response request rest)
  ∧ (∀ (request : PacketHeader) (p : Packet) (rest : List (Except String Packet)),
        p.header.ty = PacketType.Response →
        p.header.path_matches request = false →
        OfficialSession.expect_response request (Except.ok p :: rest)
          = OfficialSession.expect_response request rest)
  ∧ (∀ (request : PacketHeader) (p : Packet) (rest : List (Except String Packet)),
        p.header.ty = PacketType.Response →
        p.header.path_matches request = true →
        OfficialSession.expect_response request (Except.ok p :: rest)
          = Except.ok p)
  ∧ (∀ (request : PacketHeader) (p : Packet) (rest : List (Except String Packet)),
        p.header.ty = PacketType.Error →
        OfficialSession.expect_response request (Except.ok p :: rest)
          = Except.error (RetrieverError.Packet p)) := by
  refine ⟨fun _ => rfl, ?_, ?_, ?_, ?_⟩
  · intro request p rest h
    simp [OfficialSession.expect_response, h]
  · intro request p rest h hpath
    simp [OfficialSession.expect_response, h, hpath]
  · intro request p rest h hpath
    simp [OfficialSession.expect_response, h, hpath]
  · intro request p rest h
    simp [OfficialSession.expect_response, h]

/-- C3 witness: the contract applied to a concrete request header and one
concrete packet of each relevant shape. -/
theorem C3_witness :
    OfficialSession.expect_response (PacketHeader.request 5 1 2) []
      = Except.error RetrieverError.EarlyEof
  ∧ OfficialSession.expect_response (PacketHeader.request 5 1 2)
      [Except.ok { header := { component := 9, command := 9, error := 0,
                               ty := PacketType.Notify, options := 0, seq := 0 },
                   contents := [] }]
      = OfficialSession.expect_response (PacketHeader.request 5 1 2) []
  ∧ OfficialSession.expect_response (PacketHeader.request 5 1 2)
      [Except.ok { header := { component := 9, command := 9, error := 0,
                               ty := PacketType.Response, options := 0, seq := 5 },
                   contents := [] }]
      = OfficialSession.expect_response (PacketHeader.request 5 1 2) []
  ∧ OfficialSession.expect_response (PacketHeader.request 5 1 2)
      [Except.ok { header := { component := 1, command := 2, error := 0,
                               ty := PacketType.Response, options := 0, seq := 5 },
                   contents := [7] }]
      = Except.ok { header := { component := 1, command := 2, error := 0,
                                ty := PacketType.Response, options := 0, seq := 5 },
                    contents := [7] }
  ∧ OfficialSession.expect_response (PacketHeader.request 5 1 2)
      [Except.ok { header := { component := 9, command := 9, error := 13,
                               ty := PacketType.Error, options := 0, seq := 5 },
                   contents := [] }]
      = Except.error (RetrieverError.Packet
          { header := { component := 9, command := 9, error := 13,
                        ty := PacketType.Error, options := 0, seq := 5 },
            contents := [] }) :=
  ⟨C3_expect_response_contract.1 _,
   C3_expect_response_contract.2.1 _ _ _ rfl,
   C3_expect_response_contract.2.2.1 _ _ _ rfl (by decide),
   C3_expect_response_contract.2.2.2.1 _ _ _ rfl (by decide),
   C3_expect_response_contract.2.2.2.2 _ _ _ rfl⟩

/-- C7: `lookup_host` returns the first system-DNS address unless the lookup
produced none or the first address is loopback; in those cases it falls back
to the DNS-over-HTTPS answer, returning the last entry's `data` field, or the
`MissingValue` error when the answer list is empty. -/
theorem C7_lookup_host :
    (∀ (ip : IpAddr) (more : List IpAddr) (doh : Except String LookupResponse),
        ip.is_loopback = false →
        OfficialInstance.lookup_host (some (ip :: more)) doh = Except.ok ip.rep)
  ∧ (∀ (sysDns : Option (List IpAddr)) (resp : LookupResponse) (a : Answer),
        (∀ ip more, sysDns = some (ip :: more) → ip.is_loopback = true) →
        resp.answer.getLast? = some a →
        OfficialInstance.lookup_host sysDns (Except.ok resp) = Except.ok a.data)
  ∧ (∀ sysDns : Option (List IpAddr),
        (∀ ip more, sysDns = some (ip :: more) → ip.is_loopback = true) →
        OfficialInstance.lookup_host sysDns (Except.ok { answer := [] })
          = Except.error InstanceError.MissingValue) := by
  refine ⟨?_, ?_, ?_⟩
  · intro ip more doh h
    simp [OfficialInstance.lookup_host, h]
  · intro sysDns resp a hloop hlast
    match sysDns with
    | none => simp [OfficialInstance.lookup_host, hlast]
    | some [] => simp [OfficialInstance.lookup_host, hlast]
    | some (ip :: more) =>
        have := hloop ip more rfl
        simp [OfficialInstance.lookup_host, this, hlast]
  · intro sysDns hloop
    match sysDns with
    | none => simp [OfficialInstance.lookup_host]
    | some [] => simp [OfficialInstance.lookup_host]
    | some (ip :: more) =>
        have := hloop ip more rfl
        simp [OfficialInstance.lookup_host, this]

/-- C7 witness: the lookup theorem applied to a concrete non-loopback system
answer, a concrete loopback answer with a two-entry DoH response, and a
concrete empty DoH answer list. -/
theorem C7_witness :
    OfficialInstance.lookup_host
        (some [{ rep := "159.153.64.175", is_loopback := false }])
        (Except.error "unused")
      = Except.ok "159.153.64.175"
  ∧ OfficialInstance.lookup_host
        (some [{ rep := "127.0.0.1", is_loopback := true }])
        (Except.ok { answer := [{ data := "1.2.3.4" }, { data := "5.6.7.8" }] })
      = Except.ok "5.6.7.8"
  ∧ OfficialInstance.lookup_host none (Except.ok { answer := [] })
      = Except.error InstanceError.MissingValue :=
  ⟨C7_lookup_host.1 _ _ _ rfl,
   C7_lookup_host.2.1 _ _ _ (by intro ip more h; cases h; rfl) rfl,
   C7_lookup_host.2.2 _ (by intro ip more h; cases h)⟩

/-- C10: the codec can never reject input: `decode` answers `Ok` on every
buffer, and the only ways header parsing yields no header are insufficiency —
fewer than 12 bytes, or a jumbo-flagged header (bit 0 of the high nibble of
byte 9) with fewer than 14 bytes.  Any other buffer of at least 12 bytes is
accepted as a syntactically valid header; garbage is never an error. -/
theorem C10_decoder_total (src : List Nat) :
    (PacketCodec.decode src).isOk = true
  ∧ ((PacketHeader.read src).1 = none →
      src.length < 12
      ∨ ∃ ob, src[9]? = some ob
          ∧ PacketOptions.contains (ob >>> 4) PacketOptions.JUMBO_FRAME = true
          ∧ src.length < 14) := by
  constructor
  · rcases hpr : Packet.read src with ⟨r, s⟩
    cases r <;> simp [PacketCodec.decode, hpr, Except.isOk, Except.toBool]
  · rcases src with _ | ⟨l0, _ | ⟨l1, _ | ⟨c0, _ | ⟨c1, _ | ⟨m0, _ | ⟨m1, _ | ⟨e0,
      _ | ⟨e1, _ | ⟨tb, _ | ⟨ob, _ | ⟨s0, _ | ⟨s1, rest⟩⟩⟩⟩⟩⟩⟩⟩⟩⟩⟩⟩
    case nil => exact fun _ => Or.inl (by norm_num)
    case cons.nil => exact fun _ => Or.inl (by norm_num)
    case cons.cons.nil => exact fun _ => Or.inl (by norm_num)
    case cons.cons.cons.nil => exact fun _ => Or.inl (by norm_num)
    case cons.cons.cons.cons.nil => exact fun _ => Or.inl (by norm_num)
    case cons.cons.cons.cons.cons.nil => exact fun _ => Or.inl (by norm_num)
    case cons.cons.cons.cons.cons.cons.nil => exact fun _ => Or.inl (by norm_num)
    case cons.cons.cons.cons.cons.cons.cons.nil =>
      exact fun _ => Or.inl (by norm_num)
    case cons.cons.cons.cons.cons.cons.cons.cons.nil =>
      exact fun _ => Or.inl (by norm_num)
    case cons.cons.cons.cons.cons.cons.cons.cons.cons.nil =>
      exact fun _ => Or.inl (by norm_num)
    case cons.cons.cons.cons.cons.cons.cons.cons.cons.cons.nil =>
      exact fun _ => Or.inl (by norm_num)
    case cons.cons.cons.cons.cons.cons.cons.cons.cons.cons.cons.nil =>
      exact fun _ => Or.inl (by norm_num)
    case cons.cons.cons.cons.cons.cons.cons.cons.cons.cons.cons.cons =>
      by_cases hj : PacketOptions.contains (ob >>> 4) PacketOptions.JUMBO_FRAME = true
      · rcases rest with _ | ⟨j1, _ | ⟨j2, rest2⟩⟩
        · exact fun _ => Or.inr ⟨ob, rfl, hj, by norm_num⟩
        · exact fun _ => Or.inr ⟨ob, rfl, hj, by norm_num⟩
        · intro h
          exfalso
          simp [PacketHeader.read, hj] at h
      · intro h
        exfalso
        rw [Bool.not_eq_true] at hj
        simp [PacketHeader.read, hj] at h

/-- C10 witness: the theorem applied to a 12-byte jumbo-flagged buffer, with
the no-header hypothesis discharged by evaluation. -/
theorem C10_witness :
    (PacketCodec.decode [0, 0, 0, 0, 0, 0, 0, 0, 0, 16, 0, 0]).isOk = true
  ∧ (([0, 0, 0, 0, 0, 0, 0, 0, 0, 16, 0, 0] : List Nat).length < 12
     ∨ ∃ ob, ([0, 0, 0, 0, 0, 0, 0, 0, 0, 16, 0, 0] : List Nat)[9]? = some ob
         ∧ PacketOptions.contains (ob >>> 4) PacketOptions.JUMBO_FRAME = true
         ∧ ([0, 0, 0, 0, 0, 0, 0, 0, 0, 16, 0, 0] : List Nat).length < 14) :=
  ⟨(C10_decoder_total _).1, (C10_decoder_total _).2 (by decide)⟩

/-- When `Packet::read` produces a packet, the bytes it consumed are an
exact prefix of the buffer that re-reads as that same packet with nothing
left over. -/
theorem Packet.read_some_split {src : List Nat} {p : Packet} {remaining : List Nat}
    (h : Packet.read src = (some p, remaining)) :
    ∃ consumed, src = consumed ++ remaining ∧ Packet.read consumed = (some p, []) := by
  rcases src with _ | ⟨l0, _ | ⟨l1, _ | ⟨c0, _ | ⟨c1, _ | ⟨m0, _ | ⟨m1, _ | ⟨e0,
      _ | ⟨e1, _ | ⟨tb, _ | ⟨ob, _ | ⟨s0, _ | ⟨s1, rest⟩⟩⟩⟩⟩⟩⟩⟩⟩⟩⟩⟩
  case nil => simp [Packet.read, PacketHeader.read] at h
  case cons.nil => simp [Packet.read, PacketHeader.read] at h
  case cons.cons.nil => simp [Packet.read, PacketHeader.read] at h
  case cons.cons.cons.nil => simp [Packet.read, PacketHeader.read] at h
  case cons.cons.cons.cons.nil => simp [Packet.read, PacketHeader.read] at h
  case cons.cons.cons.cons.cons.nil => simp [Packet.read, PacketHeader.read] at h
  case cons.cons.cons.cons.cons.cons.nil => simp [Packet.read, PacketHeader.read] at h
  case cons.cons.cons.cons.cons.cons.cons.nil =>
    simp [Packet.read, PacketHeader.read] at h
  case cons.cons.cons.cons.cons.cons.cons.cons.nil =>
    simp [Packet.read, PacketHeader.read] at h
  case cons.cons.cons.cons.cons.cons.cons.cons.cons.nil =>
    simp [Packet.read, PacketHeader.read] at h
  case cons.cons.cons.cons.cons.cons.cons.cons.cons.cons.nil =>
    simp [Packet.read, PacketHeader.read] at h
  case cons.cons.cons.cons.cons.cons.cons.cons.cons.cons.cons.nil =>
    simp [Packet.read, PacketHeader.read] at h
  case cons.cons.cons.cons.cons.cons.cons.cons.cons.cons.cons.cons =>
    by_cases hj : PacketOptions.contains (ob >>> 4) PacketOptions.JUMBO_FRAME = true
    · rcases rest with _ | ⟨j1, _ | ⟨j2, s⟩⟩
      · simp [Packet.read, PacketHeader.read, hj] at h
      · simp [Packet.read, PacketHeader.read, hj] at h
      · simp only [Packet.read, PacketHeader.read, hj, if_true] at h
        by_cases hlen : s.length < l0 * 256 + l1 ||| (j1 <<< 24 ||| j2 <<< 16)
        · simp [if_pos hlen] at h
        · rw [if_neg hlen, Prod.mk.injEq, Option.some.injEq] at h
          obtain ⟨hp, hrem⟩ := h
          subst hp
          subst hrem
          refine ⟨l0 :: l1 :: c0 :: c1 :: m0 :: m1 :: e0 :: e1 :: tb :: ob :: s0 :: s1 ::
            j1 :: j2 :: List.take (l0 * 256 + l1 ||| (j1 <<< 24 ||| j2 <<< 16)) s, ?_, ?_⟩
          · simp [List.take_append_drop]
          · have hok : ¬ ((List.take (l0 * 256 + l1 ||| (j1 <<< 24 ||| j2 <<< 16)) s).length
                < l0 * 256 + l1 ||| (j1 <<< 24 ||| j2 <<< 16)) := by
              simp only [List.length_take]
              omega
            simp only [Packet.read, PacketHeader.read, hj, if_true, if_neg hok,
              List.take_take, Nat.min_self]
            have hdrop : List.drop (l0 * 256 + l1 ||| (j1 <<< 24 ||| j2 <<< 16))
                (List.take (l0 * 256 + l1 ||| (j1 <<< 24 ||| j2 <<< 16)) s) = [] := by
              apply List.drop_eq_nil_of_le
              simp only [List.length_take]
              omega
            rw [hdrop]
    · rw [Bool.not_eq_true] at hj
      simp only [Packet.read, PacketHeader.read, hj, if_false, Bool.false_eq_true] at h
      by_cases hlen : rest.length < l0 * 256 + l1
      · simp [if_pos hlen] at h
      · rw [if_neg hlen, Prod.mk.injEq, Option.some.injEq] at h
        obtain ⟨hp, hrem⟩ := h
        subst hp
        subst hrem
        refine ⟨l0 :: l1 :: c0 :: c1 :: m0 :: m1 :: e0 :: e1 :: tb :: ob :: s0 :: s1 ::
          List.take (l0 * 256 + l1) rest, ?_, ?_⟩
        · simp [List.take_append_drop]
        · have hok : ¬ ((List.take (l0 * 256 + l1) rest).length < l0 * 256 + l1) := by
            simp only [List.length_take]
            omega
          simp only [Packet.read, PacketHeader.read, hj, if_false, Bool.false_eq_true,
            if_neg hok, List.take_take, Nat.min_self]
          have hdrop : List.drop (l0 * 256 + l1) (List.take (l0 * 256 + l1) rest) = [] := by
            apply List.drop_eq_nil_of_le
            simp only [List.length_take]
            omega
          rw [hdrop]

/-- C5: a decode attempt either produces no packet and leaves the buffer
exactly as it was — partial headers, missing jumbo extension bytes and
missing content bytes are all "no packet yet", never an error — or produces
one packet and advances the buffer past exactly the bytes of that one
packet (the consumed prefix re-reads as that packet with nothing left). -/
theorem C5_streaming_decode (src : List Nat) :
    PacketCodec.decode src = Except.ok (none, src)
  ∨ ∃ p remaining consumed,
      PacketCodec.decode src = Except.ok (some p, remaining)
      ∧ src = consumed ++ remaining
      ∧ Packet.read consumed = (some p, []) := by
  rcases hpr : Packet.read src with ⟨r, s⟩
  cases r with
  | none =>
      left
      simp [PacketCodec.decode, hpr]
  | some p =>
      right
      obtain ⟨consumed, hsplit, hre⟩ := Packet.read_some_split hpr
      exact ⟨p, s, consumed, by simp [PacketCodec.decode, hpr], hsplit, hre⟩

/-- Folding two extension bytes into a sub-`2^16` base length with bitwise or
is plain addition of the shifted bytes. -/
theorem jumbo_length_eq (L j1 j2 : Nat) (hL : L < 65536) (h2 : j2 < 256) :
    L ||| (j1 <<< 24 ||| j2 <<< 16) = j1 * 16777216 + j2 * 65536 + L := by
  have e1 : j1 <<< 24 ||| j2 <<< 16 = 2 ^ 24 * j1 + 2 ^ 16 * j2 := by
    rw [Nat.shiftLeft_eq, Nat.shiftLeft_eq, Nat.mul_comm j1, Nat.mul_comm j2]
    refine (Nat.mul_add_lt_is_or ?_ j1).symm
    have h16 : (2 : Nat) ^ 16 = 65536 := by norm_num
    have h24 : (2 : Nat) ^ 24 = 16777216 := by norm_num
    rw [h16, h24]
    omega
  rw [e1]
  have e2 : 2 ^ 24 * j1 + 2 ^ 16 * j2 = 2 ^ 16 * (2 ^ 8 * j1 + j2) := by ring
  have hL16 : L < 2 ^ 16 := by
    have h16 : (2 : Nat) ^ 16 = 65536 := by norm_num
    rw [h16]
    exact hL
  rw [e2, Nat.lor_comm, ← Nat.mul_add_lt_is_or hL16 (2 ^ 8 * j1 + j2)]
  have h16 : (2 : Nat) ^ 16 = 65536 := by norm_num
  have h8 : (2 : Nat) ^ 8 = 256 := by norm_num
  rw [h16, h8]
  ring

/-- C4 (amended): for every byte sequence of real bytes that the codec
decodes as one complete packet and whose type byte is one of the four
encoder-producible values (a multiple of 16 below 64) and whose options byte
has a zero low nibble — both true of every packet the peer's encoder can
emit — re-encoding the decoded packet reproduces exactly the consumed bytes,
so the relayed packet is byte-identical to the one received. -/
theorem C4_verbatim (src : List Nat) (p : Packet) (remaining : List Nat)
    (hbytes : ∀ b ∈ src, b < 256)
    (hread : Packet.read src = (some p, remaining))
    (hty : ∃ tb, src[8]? = some tb ∧ tb % 16 = 0 ∧ tb < 64)
    (hopt : ∃ ob, src[9]? = some ob ∧ ob % 16 = 0) :
    Packet.write p ++ remaining = src := by
  obtain ⟨tb0, htb0, htbmod, htblt⟩ := hty
  obtain ⟨ob0, hob0, hobmod⟩ := hopt
  rcases src with _ | ⟨l0, _ | ⟨l1, _ | ⟨c0, _ | ⟨c1, _ | ⟨m0, _ | ⟨m1, _ | ⟨e0,
      _ | ⟨e1, _ | ⟨tb, _ | ⟨ob, _ | ⟨s0, _ | ⟨s1, rest⟩⟩⟩⟩⟩⟩⟩⟩⟩⟩⟩⟩
  case nil => simp [Packet.read, PacketHeader.read] at hread
  case cons.nil => simp [Packet.read, PacketHeader.read] at hread
  case cons.cons.nil => simp [Packet.read, PacketHeader.read] at hread
  case cons.cons.cons.nil => simp [Packet.read, PacketHeader.read] at hread
  case cons.cons.cons.cons.nil => simp [Packet.read, PacketHeader.read] at hread
  case cons.cons.cons.cons.cons.nil => simp [Packet.read, PacketHeader.read] at hread
  case cons.cons.cons.cons.cons.cons.nil => simp [Packet.read, PacketHeader.read] at hread
  case cons.cons.cons.cons.cons.cons.cons.nil =>
    simp [Packet.read, PacketHeader.read] at hread
  case cons.cons.cons.cons.cons.cons.cons.cons.nil =>
    simp [Packet.read, PacketHeader.read] at hread
  case cons.cons.cons.cons.cons.cons.cons.cons.cons.nil =>
    simp [Packet.read, PacketHeader.read] at hread
  case cons.cons.cons.cons.cons.cons.cons.cons.cons.cons.nil =>
    simp [Packet.read, PacketHeader.read] at hread
  case cons.cons.cons.cons.cons.cons.cons.cons.cons.cons.cons.nil =>
    simp [Packet.read, PacketHeader.read] at hread
  case cons.cons.cons.cons.cons.cons.cons.cons.cons.cons.cons.cons =>
    simp only [List.getElem?_cons_succ, List.getElem?_cons_zero, Option.some.injEq] at htb0 hob0
    subst htb0
    subst hob0
    have hl0 : l0 < 256 := hbytes _ (by simp)
    have hl1 : l1 < 256 := hbytes _ (by simp)
    have hc0 : c0 < 256 := hbytes _ (by simp)
    have hc1 : c1 < 256 := hbytes _ (by simp)
    have hm0 : m0 < 256 := hbytes _ (by simp)
    have hm1 : m1 < 256 := hbytes _ (by simp)
    have he0 : e0 < 256 := hbytes _ (by simp)
    have he1 : e1 < 256 := hbytes _ (by simp)
    have hs0 : s0 < 256 := hbytes _ (by simp)
    have hs1 : s1 < 256 := hbytes _ (by simp)
    have htbv : tb < 256 := hbytes _ (by simp)
    have hobv : ob < 256 := hbytes _ (by simp)
    by_cases hj : PacketOptions.contains (ob >>> 4) PacketOptions.JUMBO_FRAME = true
    · rcases rest with _ | ⟨j1, _ | ⟨j2, s⟩⟩
      · simp [Packet.read, PacketHeader.read, hj] at hread
      · simp [Packet.read, PacketHeader.read, hj] at hread
      · have hj1 : j1 < 256 := hbytes _ (by simp)
        have hj2 : j2 < 256 := hbytes _ (by simp)
        simp only [Packet.read, PacketHeader.read, hj, if_true] at hread
        rw [jumbo_length_eq _ j1 j2 (by omega) hj2] at hread
        by_cases hlen : s.length < j1 * 16777216 + j2 * 65536 + (l0 * 256 + l1)
        · simp [if_pos hlen] at hread
        · rw [if_neg hlen, Prod.mk.injEq, Option.some.injEq] at hread
          obtain ⟨hp, hrem⟩ := hread
          subst hp
          subst hrem
          have hlenA : (List.take (j1 * 16777216 + j2 * 65536 + (l0 * 256 + l1)) s).length
              = j1 * 16777216 + j2 * 65536 + (l0 * 256 + l1) := by
            rw [List.length_take]
            omega
          have htbeq : (PacketType.toNat (PacketType.from_u8 (tb >>> 4)) <<< 4) % 256 = tb := by
            have h4 : tb = 0 ∨ tb = 16 ∨ tb = 32 ∨ tb = 48 := by omega
            rcases h4 with rfl | rfl | rfl | rfl <;> decide
          have hobeq : ((ob >>> 4) <<< 4) % 256 = ob := by
            simp only [Nat.shiftRight_eq_div_pow, Nat.shiftLeft_eq]
            norm_num
            omega
          simp only [Packet.write, PacketHeader.write, hlenA, hj, if_true,
            List.cons_append, List.nil_append, List.append_assoc, List.take_append_drop,
            List.cons.injEq, htbeq, hobeq]
          simp only [Nat.shiftRight_eq_div_pow, Nat.shiftLeft_eq]
          norm_num
          omega
    · rw [Bool.not_eq_true] at hj
      simp only [Packet.read, PacketHeader.read, hj, if_false, Bool.false_eq_true] at hread
      by_cases hlen : rest.length < l0 * 256 + l1
      · simp [if_pos hlen] at hread
      · rw [if_neg hlen, Prod.mk.injEq, Option.some.injEq] at hread
        obtain ⟨hp, hrem⟩ := hread
        subst hp
        subst hrem
        have hlenA : (List.take (l0 * 256 + l1) rest).length = l0 * 256 + l1 := by
          rw [List.length_take]
          omega
        have htbeq : (PacketType.toNat (PacketType.from_u8 (tb >>> 4)) <<< 4) % 256 = tb := by
          have h4 : tb = 0 ∨ tb = 16 ∨ tb = 32 ∨ tb = 48 := by omega
          rcases h4 with rfl | rfl | rfl | rfl <;> decide
        have hobeq : ((ob >>> 4) <<< 4) % 256 = ob := by
          simp only [Nat.shiftRight_eq_div_pow, Nat.shiftLeft_eq]
          norm_num
          omega
        simp only [Packet.write, PacketHeader.write, hlenA, hj, if_false, Bool.false_eq_true,
          List.cons_append, List.nil_append, List.append_nil, List.append_assoc,
          List.take_append_drop, List.cons.injEq, htbeq, hobeq]
        simp only [Nat.shiftRight_eq_div_pow, Nat.shiftLeft_eq]
        norm_num
        omega

/-- C4 counterexample: a 12-byte input whose type byte is `0x01` (nonzero
low nibble) decodes as one complete packet, but re-encoding that packet
yields a zero type byte, so the forwarded bytes differ from the received
bytes. -/
theorem C4_counterexample :
    Packet.read [0, 0, 0, 0, 0, 0, 0, 0, 1, 0, 0, 0]
      = (some { header := { component := 0, command := 0, error := 0,
                            ty := PacketType.Request, options := 0, seq := 0 },
                contents := [] }, [])
  ∧ Packet.write { header := { component := 0, command := 0, error := 0,
                               ty := PacketType.Request, options := 0, seq := 0 },
                   contents := [] } ++ []
      ≠ [0, 0, 0, 0, 0, 0, 0, 0, 1, 0, 0, 0] := by decide

/-- C4 witness: the amended theorem applied to a concrete 13-byte Response
packet with one content byte. -/
theorem C4_witness :
    Packet.write { header := { component := 1, command := 2, error := 0,
                               ty := PacketType.Response, options := 0, seq := 9 },
                   contents := [42] } ++ []
      = [0, 1, 0, 1, 0, 2, 0, 0, 16, 0, 0, 9, 42] :=
  C4_verbatim _ _ _ (by decide) (by decide)
    ⟨16, by decide, by decide, by decide⟩ ⟨0, by decide, by decide⟩
